import Mathlib

/-!
Shallow embedding of `src/python/backend.py`.

The module builds a FastAPI application, registers a single route
(`GET /status`) and defines one handler, `get_status`, which returns a
`JSONResponse` whose content is a one-field JSON object mapping `msg` to
the literal string `Servidor FastAPI ativo e funcional!`.

The FastAPI framework itself (route dispatch, `JSONResponse` defaults,
JSON serialization) is external library code not contained in the
repository; those parts are modelled from the specification and carry a
doc comment saying so.
-/

/-- HTTP request methods relevant to the routing layer. -/
inductive Method where
  | GET
  | POST
  | PUT
  | DELETE
  | PATCH
  | HEAD
  | OPTIONS
deriving DecidableEq, Repr

/-- An HTTP request as seen by the routing layer: a method, a path, and
request data (headers, query parameters, body) that a handler may or may
not consume. -/
structure Request where
  method : Method
  path : String
  headers : List (String × String)
  queryParams : List (String × String)
  body : String
deriving DecidableEq, Repr

/-- JSON values, restricted to the fragment the program produces:
strings and objects with string keys. -/
inductive Json where
  | str : String → Json
  | obj : List (String × Json) → Json

mutual

/-- Modelled from the spec: JSON serialization of the response body is
performed by the framework, outside the repository; a JSON object is
rendered brace-delimited with comma-separated `"key": value` fields, as
written in the spec's literals. -/
def Json.render : Json → String
  | Json.str s => ("\"") ++ s ++ ("\"")
  | Json.obj fs => ("\x7b") ++ Json.renderFields fs ++ ("\x7d")

/-- Renders the field list of a JSON object, comma-separated. -/
def Json.renderFields : List (String × Json) → String
  | [] => ""
  | [kv] => ("\"") ++ kv.1 ++ ("\": ") ++ Json.render kv.2
  | kv :: rest => ("\"") ++ kv.1 ++ ("\": ") ++ Json.render kv.2 ++ (", ") ++ Json.renderFields rest

end

/-- An HTTP response: status code, media type (the Content-Type), and a
JSON content value. -/
structure Response where
  status_code : Nat
  media_type : String
  content : Json

/-- Modelled from the spec: `fastapi.responses.JSONResponse` is framework
code not under `src/`; per the spec, a response built from a content value
carries status code 200 and Content-Type `application/json`. -/
def JSONResponse (content : Json) : Response :=
  { status_code := 200, media_type := ("application/json"), content := content }

/-- Embedding of the handler defined at `src/python/backend.py` lines 8-9:
it returns a `JSONResponse` whose content is the one-field object mapping
`msg` to the fixed literal. -/
def get_status : Response :=
  JSONResponse (Json.obj [(("msg"), Json.str ("Servidor FastAPI ativo e funcional!"))])

/-- A routing-table entry: the method and path a registered handler
responds to. -/
structure RouteKey where
  method : Method
  path : String
deriving DecidableEq, Repr

/-- The route registered by the decorator at `src/python/backend.py`
line 7: method GET on path `/status`. -/
def statusRoute : RouteKey :=
  { method := Method.GET, path := ("/status") }

/-- The application's routing table. `FastAPI()` (framework code outside
the repository) contributes some framework-default routes, abstracted here
as the parameter `fw`; the module then registers exactly one route of its
own, `statusRoute`, via the decorator at line 7. -/
def app_routes (fw : List RouteKey) : List RouteKey :=
  fw ++ [statusRoute]

/-- Does routing-table entry `r` match request `req`? Path and method must
both agree. -/
def routeMatches (r : RouteKey) (req : Request) : Bool :=
  r.path == req.path && decide (r.method = req.method)

/-- Modelled from the spec: the host framework's default response for a
request whose path matches no route is status 404 (not found). -/
def notFoundResponse : Response :=
  { status_code := 404
  , media_type := ("application/json")
  , content := Json.obj [(("detail"), Json.str ("Not Found"))] }

/-- Modelled from the spec: the host framework's default response for a
request whose path matches a route but whose method does not is status 405
(method not allowed). -/
def methodNotAllowedResponse : Response :=
  { status_code := 405
  , media_type := ("application/json")
  , content := Json.obj [(("detail"), Json.str ("Method Not Allowed"))] }

/-- The module-level state of `backend.py`: the only module-level binding
is `app`, whose observable routing state is its routing table. -/
structure ModuleState where
  app : List RouteKey
deriving DecidableEq

/-- Embedding of one invocation of the Python function `get_status` in
explicit state-passing style. Its body is the single statement
`return JSONResponse(content=...)`: it contains no assignment, no
`global` declaration and no call with side effects, so the module state
passes through unchanged and the returned value is `get_status`. -/
def get_status_call (s : ModuleState) : Response × ModuleState :=
  (get_status, s)

/-- A run of `n` successive invocations of `get_status`, collecting the
responses produced and threading the module state. -/
def run : Nat → ModuleState → List Response × ModuleState
  | 0, s => ([], s)
  | n + 1, s =>
    let p := get_status_call s
    let q := run n p.2
    (p.1 :: q.1, q.2)

/-- Modelled from the spec: the host framework's request dispatch, which
is library code outside the repository. It looks for the first registered
route matching the request's path and method; if one is found and it is
the route the module registered, the module's handler `get_status` runs
(consuming no request data, since the Python handler declares no
parameters); if the matching route is a framework-default one, its
abstract handler `fwHandler` runs; if no route matches but some route
shares the path, the host-default 405 response is produced; otherwise the
host-default 404 response is produced. Handlers other than the module's
may do anything to the state, so `fwHandler` is state-passing as well. -/
def serve (fw : List RouteKey)
    (fwHandler : RouteKey → Request → ModuleState → Response × ModuleState)
    (req : Request) (s : ModuleState) : Response × ModuleState :=
  match (app_routes fw).find? (fun r => routeMatches r req) with
  | some r => if r = statusRoute then get_status_call s else fwHandler r req s
  | none =>
    if (app_routes fw).any (fun r => r.path == req.path) then (methodNotAllowedResponse, s)
    else (notFoundResponse, s)

/-! Helper lemmas shared by the claim theorems. -/

/-- When no framework route has path `/status`, a GET request to `/status`
reaches the module's registered route and the handler returns `get_status`
with the state unchanged. -/
theorem serve_status_get (fw : List RouteKey)
    (fwHandler : RouteKey → Request → ModuleState → Response × ModuleState)
    (req : Request) (s : ModuleState)
    (hm : req.method = Method.GET) (hp : req.path = ("/status"))
    (hfw : ∀ r ∈ fw, r.path ≠ ("/status")) :
    serve fw fwHandler req s = (get_status, s) := by
  have hnone : fw.find? (fun r => routeMatches r req) = none := by
    rw [List.find?_eq_none]
    intro r hr
    simp only [routeMatches, hp, Bool.and_eq_true, beq_iff_eq, decide_eq_true_eq, not_and]
    intro hpath _
    exact hfw r hr hpath
  have hfind : (app_routes fw).find? (fun r => routeMatches r req) = some statusRoute := by
    rw [app_routes, List.find?_append, hnone]
    simp [List.find?, routeMatches, statusRoute, hp, hm]
  simp [serve, hfind, get_status_call]

/-- A run of `n` invocations produces `n` copies of the fixed response and
returns the module state unchanged. -/
theorem run_eq (n : Nat) (s : ModuleState) :
    run n s = (List.replicate n get_status, s) := by
  induction n with
  | zero => rfl
  | succ k ih => simp [run, get_status_call, ih, List.replicate]

/-! Claim theorems. -/

/-- C1: every HTTP GET request addressed to path `/status` is answered by
the `get_status` handler with status code 200, Content-Type
`application/json`, and content exactly the one-field JSON object mapping
`msg` to the literal message. -/
theorem C1_get_status_response (fw : List RouteKey)
    (fwHandler : RouteKey → Request → ModuleState → Response × ModuleState)
    (req : Request) (s : ModuleState)
    (hm : req.method = Method.GET) (hp : req.path = ("/status"))
    (hfw : ∀ r ∈ fw, r.path ≠ ("/status")) :
    (serve fw fwHandler req s).1.status_code = 200 ∧
    (serve fw fwHandler req s).1.media_type = ("application/json") ∧
    (serve fw fwHandler req s).1.content =
      Json.obj [(("msg"), Json.str ("Servidor FastAPI ativo e funcional!"))] := by
  rw [serve_status_get fw fwHandler req s hm hp hfw]
  exact ⟨rfl, rfl, rfl⟩

/-- Witness for C1 at a concrete GET request to `/status` with empty
framework route list. -/
theorem C1_get_status_response_witness :
    (serve [] (fun _ _ s => (notFoundResponse, s))
      { method := Method.GET, path := "/status", headers := [], queryParams := [], body := "" }
      (ModuleState.mk [statusRoute])).1.status_code = 200 ∧
    (serve [] (fun _ _ s => (notFoundResponse, s))
      { method := Method.GET, path := "/status", headers := [], queryParams := [], body := "" }
      (ModuleState.mk [statusRoute])).1.media_type = ("application/json") ∧
    (serve [] (fun _ _ s => (notFoundResponse, s))
      { method := Method.GET, path := "/status", headers := [], queryParams := [], body := "" }
      (ModuleState.mk [statusRoute])).1.content =
      Json.obj [(("msg"), Json.str ("Servidor FastAPI ativo e funcional!"))] :=
  C1_get_status_response [] (fun _ _ s => (notFoundResponse, s))
    { method := Method.GET, path := "/status", headers := [], queryParams := [], body := "" }
    (ModuleState.mk [statusRoute]) rfl rfl (by simp)

/-- C2: the handler is deterministic: any two invocations, from any module
states, produce equal responses, and the rendered response bodies are the
same byte string, namely the spec's literal object. -/
theorem C2_deterministic_body (s1 s2 : ModuleState) :
    (get_status_call s1).1 = (get_status_call s2).1 ∧
    ((get_status_call s1).1).content.render = ((get_status_call s2).1).content.render ∧
    ((get_status_call s1).1).content.render =
      ("\x7b\"msg\": \"Servidor FastAPI ativo e funcional!\"\x7d") :=
  ⟨rfl, rfl, rfl⟩

/-- C3: idempotence: for every n ≥ 1, a run of n invocations leaves the
module state exactly as a single invocation does, and every one of its n
responses equals the single invocation's response `get_status`. -/
theorem C3_idempotent (n : Nat) (s : ModuleState) (_h : 1 ≤ n) :
    (run n s).2 = (run 1 s).2 ∧
    (run n s).1 = List.replicate n get_status ∧
    (run 1 s).1 = List.replicate 1 get_status := by
  rw [run_eq, run_eq]
  exact ⟨rfl, rfl, rfl⟩

/-- Witness for C3 at n = 2 on a concrete module state. -/
theorem C3_idempotent_witness :
    1 ≤ 2 ∧
    ((run 2 (ModuleState.mk [statusRoute])).2 = (run 1 (ModuleState.mk [statusRoute])).2 ∧
     (run 2 (ModuleState.mk [statusRoute])).1 = List.replicate 2 get_status ∧
     (run 1 (ModuleState.mk [statusRoute])).1 = List.replicate 1 get_status) :=
  ⟨by decide, C3_idempotent 2 (ModuleState.mk [statusRoute]) (by decide)⟩

/-- C4: frame property: an invocation of `get_status` leaves the module
state, and in particular the `app` binding, unchanged. -/
theorem C4_no_state_change (s : ModuleState) :
    (get_status_call s).2 = s ∧ (get_status_call s).2.app = s.app :=
  ⟨rfl, rfl⟩

/-- C5: invariant: every response produced in any run has as content
exactly the one-field JSON object mapping `msg` to the fixed literal. -/
theorem C5_msg_invariant (n : Nat) (s : ModuleState) :
    ∀ resp ∈ (run n s).1,
      resp.content = Json.obj [(("msg"), Json.str ("Servidor FastAPI ativo e funcional!"))] := by
  intro resp hresp
  rw [run_eq] at hresp
  have hre : resp = get_status := List.eq_of_mem_replicate hresp
  rw [hre]
  rfl

/-- Witness for C5: the response of a one-invocation run is a member of
that run's responses and its content is the fixed object. -/
theorem C5_msg_invariant_witness :
    get_status ∈ (run 1 (ModuleState.mk [statusRoute])).1 ∧
    get_status.content = Json.obj [(("msg"), Json.str ("Servidor FastAPI ativo e funcional!"))] :=
  ⟨by rw [run_eq]; exact List.mem_replicate.mpr ⟨one_ne_zero, rfl⟩,
   C5_msg_invariant 1 (ModuleState.mk [statusRoute]) get_status
     (by rw [run_eq]; exact List.mem_replicate.mpr ⟨one_ne_zero, rfl⟩)⟩

/-- C6: a POST request to `/status` matches no registered handler (the
module registered only GET on that path), so the host-default
method-not-allowed response with status 405 is produced and the module
state is untouched. Framework-default routes are assumed not to register
POST `/status` themselves. -/
theorem C6_post_status (fw : List RouteKey)
    (fwHandler : RouteKey → Request → ModuleState → Response × ModuleState)
    (req : Request) (s : ModuleState)
    (hm : req.method = Method.POST) (hp : req.path = ("/status"))
    (hfw : ∀ r ∈ fw, r.method ≠ Method.POST ∨ r.path ≠ ("/status")) :
    (app_routes fw).find? (fun r => routeMatches r req) = none ∧
    serve fw fwHandler req s = (methodNotAllowedResponse, s) ∧
    methodNotAllowedResponse.status_code = 405 := by
  have hnone : (app_routes fw).find? (fun r => routeMatches r req) = none := by
    rw [List.find?_eq_none]
    intro r hr
    simp only [app_routes, List.mem_append, List.mem_singleton] at hr
    cases hr with
    | inl hin =>
      simp only [routeMatches, hp, hm, Bool.and_eq_true, beq_iff_eq, decide_eq_true_eq, not_and]
      intro hpath hmeth
      cases hfw r hin with
      | inl hne => exact hne hmeth
      | inr hne => exact hne hpath
    | inr heq =>
      rw [heq]
      simp [routeMatches, statusRoute, hm]
  have hany : (app_routes fw).any (fun r => r.path == req.path) = true := by
    simp only [app_routes, List.any_append, List.any_cons, List.any_nil, Bool.or_eq_true]
    right
    simp [statusRoute, hp]
  refine ⟨hnone, ?_, rfl⟩
  simp [serve, hnone, hany]

/-- Witness for C6 at a concrete POST request to `/status`. -/
theorem C6_post_status_witness :
    (app_routes []).find? (fun r => routeMatches r
      { method := Method.POST, path := "/status", headers := [], queryParams := [], body := "" }) = none ∧
    serve [] (fun _ _ s => (notFoundResponse, s))
      { method := Method.POST, path := "/status", headers := [], queryParams := [], body := "" }
      (ModuleState.mk [statusRoute]) = (methodNotAllowedResponse, ModuleState.mk [statusRoute]) ∧
    methodNotAllowedResponse.status_code = 405 :=
  C6_post_status [] (fun _ _ s => (notFoundResponse, s))
    { method := Method.POST, path := "/status", headers := [], queryParams := [], body := "" }
    (ModuleState.mk [statusRoute]) rfl rfl (by simp)

/-- C7: a GET request to any path other than `/status` matches no
registered handler, so the host-default not-found response with status 404
is produced and the module state is untouched. Framework-default routes
are assumed not to serve the requested path themselves. -/
theorem C7_unknown_path (fw : List RouteKey)
    (fwHandler : RouteKey → Request → ModuleState → Response × ModuleState)
    (req : Request) (s : ModuleState)
    (_hm : req.method = Method.GET) (hp : req.path ≠ ("/status"))
    (hfw : ∀ r ∈ fw, r.path ≠ req.path) :
    (app_routes fw).find? (fun r => routeMatches r req) = none ∧
    serve fw fwHandler req s = (notFoundResponse, s) ∧
    notFoundResponse.status_code = 404 := by
  have hpaths : ∀ r ∈ app_routes fw, r.path ≠ req.path := by
    intro r hr
    simp only [app_routes, List.mem_append, List.mem_singleton] at hr
    cases hr with
    | inl hin => exact hfw r hin
    | inr heq =>
      rw [heq]
      intro hcontra
      exact hp hcontra.symm
  have hnone : (app_routes fw).find? (fun r => routeMatches r req) = none := by
    rw [List.find?_eq_none]
    intro r hr
    simp only [routeMatches, Bool.and_eq_true, beq_iff_eq, decide_eq_true_eq, not_and]
    intro hpath _
    exact hpaths r hr hpath
  have hany : (app_routes fw).any (fun r => r.path == req.path) = false := by
    rw [List.any_eq_false]
    intro r hr
    simp only [beq_iff_eq]
    exact hpaths r hr
  refine ⟨hnone, ?_, rfl⟩
  simp [serve, hnone, hany]

/-- Witness for C7 at a concrete GET request to `/unknown`. -/
theorem C7_unknown_path_witness :
    (app_routes []).find? (fun r => routeMatches r
      { method := Method.GET, path := "/unknown", headers := [], queryParams := [], body := "" }) = none ∧
    serve [] (fun _ _ s => (notFoundResponse, s))
      { method := Method.GET, path := "/unknown", headers := [], queryParams := [], body := "" }
      (ModuleState.mk [statusRoute]) = (notFoundResponse, ModuleState.mk [statusRoute]) ∧
    notFoundResponse.status_code = 404 :=
  C7_unknown_path [] (fun _ _ s => (notFoundResponse, s))
    { method := Method.GET, path := "/unknown", headers := [], queryParams := [], body := "" }
    (ModuleState.mk [statusRoute]) rfl (by decide) (by simp)

/-- C8: totality: every invocation of the handler, from any module state,
returns a response (the embedding is a total, non-recursive function), the
response carries the success status 200, and the error branch is empty:
the status is never the generic error 500. -/
theorem C8_total (s : ModuleState) :
    ∃ (resp : Response) (s2 : ModuleState),
      get_status_call s = (resp, s2) ∧ resp.status_code = 200 ∧ resp.status_code ≠ 500 :=
  ⟨get_status, s, rfl, rfl, by decide⟩

/-- C9: noninterference: two GET requests to `/status` that differ
arbitrarily in headers, query parameters and body receive exactly the same
response and leave the same final state: the handler consumes no request
data. -/
theorem C9_noninterference (fw : List RouteKey)
    (fwHandler : RouteKey → Request → ModuleState → Response × ModuleState)
    (req1 req2 : Request) (s : ModuleState)
    (h1m : req1.method = Method.GET) (h1p : req1.path = ("/status"))
    (h2m : req2.method = Method.GET) (h2p : req2.path = ("/status"))
    (hfw : ∀ r ∈ fw, r.path ≠ ("/status")) :
    serve fw fwHandler req1 s = serve fw fwHandler req2 s := by
  rw [serve_status_get fw fwHandler req1 s h1m h1p hfw,
    serve_status_get fw fwHandler req2 s h2m h2p hfw]

/-- Witness for C9: two concrete GET requests to `/status` with different
headers, query parameters and bodies receive the same response. -/
theorem C9_noninterference_witness :
    serve [] (fun _ _ s => (notFoundResponse, s))
      { method := Method.GET, path := "/status"
      , headers := [(("X-Debug"), ("1"))], queryParams := [(("verbose"), ("true"))], body := "abc" }
      (ModuleState.mk [statusRoute]) =
    serve [] (fun _ _ s => (notFoundResponse, s))
      { method := Method.GET, path := "/status", headers := [], queryParams := [], body := "" }
      (ModuleState.mk [statusRoute]) :=
  C9_noninterference [] (fun _ _ s => (notFoundResponse, s))
    { method := Method.GET, path := "/status"
    , headers := [(("X-Debug"), ("1"))], queryParams := [(("verbose"), ("true"))], body := "abc" }
    { method := Method.GET, path := "/status", headers := [], queryParams := [], body := "" }
    (ModuleState.mk [statusRoute]) rfl rfl rfl rfl (by simp)

/-- C10: the module registers exactly one route of its own, GET `/status`:
whatever routes the framework itself contributes, the application's
routing table is those framework entries plus that single route, and its
length is exactly one more than the framework's. -/
theorem C10_single_route (fw : List RouteKey) :
    app_routes fw = fw ++ [{ method := Method.GET, path := "/status" }] ∧
    (app_routes fw).length = fw.length + 1 :=
  ⟨rfl, by simp [app_routes]⟩
